import Mathlib

/-!
Verification of the journal/category federation engine
(`implementations/models.py`, `implementations/query_handlers.py`,
`implementations/query_engines.py`, `implementations/upload_handlers.py`).

Modelling conventions.
The bibliographic store is reached over HTTP and the classification store
over SQLite; the transports themselves are external collaborators.  A
bibliographic adapter (`JournalQueryHandler`) is therefore modelled by the
tabular responses it produces: `_execute_sparql_query` deserialises each
binding into a dictionary mapping a variable name to a string value, so a
row is a list of (column, string) pairs with absent columns simply missing.
A classification adapter (`CategoryQueryHandler`) is modelled by the SQLite
database it queries, and each of its methods is embedded as the semantics
of the SQL text it issues.  Python object identity (the semantics of
`handler not in list` under default `__eq__`) is modelled by an `oid` field,
standing for `id(obj)`, which is distinct for distinct instances.
A handler whose backend is unreachable is modelled by `fails := true`: in
the source every adapter method catches the transport error and returns an
empty DataFrame, so a failing handler answers every query with no rows.
-/

/-- One tabular row returned by the bibliographic adapter: the columns
present in one SPARQL binding, each with its (always string) value. -/
abbrev JRow : Type := List (String × String)

/-- `row.get(col, default)` on a bibliographic row. -/
def jget (r : JRow) (c : String) (d : String) : String :=
  (List.lookup c r).getD d

/-- Python `str.lower()` (characterwise lowering; the flag cells compared
against "true" are ASCII). -/
def pyLower (s : String) : String := String.mk (s.data.map Char.toLower)

/-- `Category` from `models.py`: identifiers plus an optional quartile. -/
structure Category where
  ids : List String
  quartile : Option String
deriving DecidableEq

/-- `Area` from `models.py`: identifiers only. -/
structure Area where
  ids : List String
deriving DecidableEq

/-- `Journal` from `models.py`.  The `categories`/`areas` association lists
exist on the class; the query engine never populates them, so they stay
empty in every entity it returns. -/
structure Journal where
  ids : List String
  title : String
  languages : List String
  publisher : Option String
  doajSeal : Bool
  licence : String
  apc : Bool
  categories : List Category
  areas : List Area
deriving DecidableEq

/-- `Journal.hasAPC`. -/
def Journal.hasAPC (j : Journal) : Bool := j.apc

/-- `Journal.hasDOASeal` (the accessor is spelled without the second J in
`models.py`). -/
def Journal.hasDOASeal (j : Journal) : Bool := j.doajSeal

/-- `BasicQueryEngine._dataframe_to_journal`.  `setId` keeps a singleton
list for a truthy identifier and the empty list otherwise; the seal and
apc cells are strings in every adapter row (the SPARQL deserialiser yields
strings), so the `isinstance(value, str)` branch applies and the flag is
`value.lower() == 'true'`. -/
def dataframe_to_journal (r : JRow) : Journal :=
  let issnCell := jget r "issn" ""
  let issn := if issnCell ≠ "" then issnCell else jget r "eissn" ""
  { ids := if issn = "" then [] else [issn]
    title := jget r "title" ""
    languages :=
      match List.lookup "language" r with
      | some s => if s = "" then [] else [s]
      | none => []
    publisher := List.lookup "publisher" r
    doajSeal := pyLower (jget r "seal" "false") == "true"
    licence := jget r "licence" ""
    apc := pyLower (jget r "apc" "false") == "true"
    categories := []
    areas := [] }

/-- One row returned by the classification adapter.  A category query
selects the columns `id, quartile` (so `quartile` is present, possibly
NULL); an area query selects `id` only (so `quartile` is absent).  The
outer option records column presence, the inner one SQL NULL. -/
structure CRow where
  id : String
  quartile : Option (Option String)
deriving DecidableEq

/-- `BasicQueryEngine._dataframe_to_category`. -/
def dataframe_to_category (r : CRow) : Category :=
  { ids := if r.id = "" then [] else [r.id]
    quartile := r.quartile.join }

/-- `BasicQueryEngine._dataframe_to_area`. -/
def dataframe_to_area (r : CRow) : Area :=
  { ids := if r.id = "" then [] else [r.id] }

/-- Flattened map over a list (the semantics of the nested engine loops
that append results handler by handler, row by row). -/
def listFlat (f : α → List β) : List α → List β
  | [] => []
  | a :: l => f a ++ listFlat f l

/-- SQL `DISTINCT`: keep the first occurrence of each row. -/
def dedupAux [BEq α] (seen : List α) : List α → List α
  | [] => []
  | a :: l => if seen.contains a then dedupAux seen l else a :: dedupAux (a :: seen) l

/-- SQL `DISTINCT` over a whole result. -/
def dedup [BEq α] (l : List α) : List α := dedupAux [] l

/-- Insertion step of the deterministic sort standing for `ORDER BY`. -/
def insertByKey (key : α → String) (a : α) : List α → List α
  | [] => [a]
  | b :: l => if key a ≤ key b then a :: b :: l else b :: insertByKey key a l

/-- Deterministic sort standing for SQL `ORDER BY key`. -/
def sortByKey (key : α → String) : List α → List α
  | [] => []
  | a :: l => insertByKey key a (sortByKey key l)

/-- The relational store behind a classification adapter: the four tables
created by `CategoryUploadHandler._create_tables`.  `categories` rows are
(id, quartile), `journal_categories` rows are (issn, category_id, quartile),
`journal_areas` rows are (issn, area_id). -/
structure SqliteDb where
  categories : List (String × Option String)
  areas : List String
  journal_categories : List (String × String × Option String)
  journal_areas : List (String × String)
deriving DecidableEq

/-- `CategoryQueryHandler`: its SQLite database, the `id(obj)` identity of
the Python instance, and whether its backend connection fails (in which
case every method catches the error and returns an empty result). -/
structure CategoryQueryHandler where
  oid : Nat
  fails : Bool
  db : SqliteDb

/-- `SELECT id, quartile FROM categories WHERE id = ?` followed, when that
is empty, by `SELECT id FROM areas WHERE id = ?`
(`CategoryQueryHandler.getById`). -/
def CategoryQueryHandler.getById (h : CategoryQueryHandler) (entity_id : String) : List CRow :=
  if h.fails then []
  else
    let category_df := (h.db.categories.filter (fun p => p.1 = entity_id)).map
      (fun p => CRow.mk p.1 (some p.2))
    if category_df ≠ [] then category_df
    else (h.db.areas.filter (fun a => a = entity_id)).map (fun a => CRow.mk a none)

/-- `SELECT DISTINCT id, quartile FROM categories ORDER BY id`
(`CategoryQueryHandler.getAllCategories`). -/
def CategoryQueryHandler.getAllCategories (h : CategoryQueryHandler) : List CRow :=
  if h.fails then []
  else sortByKey CRow.id (dedup (h.db.categories.map (fun p => CRow.mk p.1 (some p.2))))

/-- `SELECT DISTINCT id FROM areas ORDER BY id`
(`CategoryQueryHandler.getAllAreas`). -/
def CategoryQueryHandler.getAllAreas (h : CategoryQueryHandler) : List CRow :=
  if h.fails then []
  else sortByKey CRow.id (dedup (h.db.areas.map (fun a => CRow.mk a none)))

/-- `CategoryQueryHandler.getCategoriesWithQuartile`: with an empty set the
unfiltered listing query is issued; otherwise
`... WHERE quartile IN (...)` (a NULL quartile never matches `IN`). -/
def CategoryQueryHandler.getCategoriesWithQuartile (h : CategoryQueryHandler)
    (quartiles : List String) : List CRow :=
  if h.fails then []
  else if quartiles.isEmpty then
    sortByKey CRow.id (dedup (h.db.categories.map (fun p => CRow.mk p.1 (some p.2))))
  else
    sortByKey CRow.id (dedup
      ((h.db.categories.filter (fun p =>
          match p.2 with
          | some q => quartiles.contains q
          | none => false)).map (fun p => CRow.mk p.1 (some p.2))))

/-- `CategoryQueryHandler.getCategoriesAssignedToAreas`: with an empty set
the source issues `SELECT DISTINCT c.id, c.quartile FROM categories c ORDER
BY c.id`, the unfiltered listing; otherwise a two-hop join through
`journal_categories` and `journal_areas` filtered on the area ids, whose
`DISTINCT` projection is membership of a witnessing join row. -/
def CategoryQueryHandler.getCategoriesAssignedToAreas (h : CategoryQueryHandler)
    (area_ids : List String) : List CRow :=
  if h.fails then []
  else if area_ids.isEmpty then
    sortByKey CRow.id (dedup (h.db.categories.map (fun p => CRow.mk p.1 (some p.2))))
  else
    sortByKey CRow.id (dedup
      ((h.db.categories.filter (fun c =>
          h.db.journal_categories.any (fun jc =>
            jc.2.1 = c.1 && h.db.journal_areas.any (fun ja =>
              ja.1 = jc.1 && area_ids.contains ja.2)))).map
        (fun p => CRow.mk p.1 (some p.2))))

/-- `CategoryQueryHandler.getAreasAssignedToCategories`: with an empty set
the source issues `SELECT DISTINCT id FROM areas ORDER BY id`, the
unfiltered listing; otherwise the symmetric two-hop join filtered on the
category ids. -/
def CategoryQueryHandler.getAreasAssignedToCategories (h : CategoryQueryHandler)
    (category_ids : List String) : List CRow :=
  if h.fails then []
  else if category_ids.isEmpty then
    sortByKey CRow.id (dedup (h.db.areas.map (fun a => CRow.mk a none)))
  else
    sortByKey CRow.id (dedup
      ((h.db.areas.filter (fun a =>
          h.db.journal_areas.any (fun ja =>
            ja.2 = a && h.db.journal_categories.any (fun jc =>
              jc.1 = ja.1 && category_ids.contains jc.2.1)))).map
        (fun a => CRow.mk a none)))

/-- `FullQueryEngine._get_issns_for_category`:
`SELECT DISTINCT issn FROM journal_categories WHERE category_id = ?`,
issued over the handler's own database path; any connection error is
caught and yields the empty set. -/
def issnsForCategory (h : CategoryQueryHandler) (category_id : String) : List String :=
  if h.fails then []
  else dedup ((h.db.journal_categories.filter (fun jc => jc.2.1 = category_id)).map (fun jc => jc.1))

/-- `FullQueryEngine._get_issns_for_area`:
`SELECT DISTINCT issn FROM journal_areas WHERE area_id = ?`. -/
def issnsForArea (h : CategoryQueryHandler) (area_id : String) : List String :=
  if h.fails then []
  else dedup ((h.db.journal_areas.filter (fun ja => ja.2 = area_id)).map (fun ja => ja.1))

/-- `JournalQueryHandler`: the bibliographic adapter, modelled by the
tabular responses its SPARQL queries produce (the graph store itself is an
external collaborator), together with the `id(obj)` identity of the
instance and the unreachable-backend flag. -/
structure JournalQueryHandler where
  oid : Nat
  fails : Bool
  byId : String → List JRow
  allJournals : List JRow
  withTitle : String → List JRow
  publishedBy : String → List JRow
  withLicense : List String → List JRow
  withAPC : List JRow
  withDOAJSeal : List JRow

/-- `JournalQueryHandler.getById`: the rows of the by-issn SPARQL query, or
no rows when the transport fails. -/
def JournalQueryHandler.getById (h : JournalQueryHandler) (entity_id : String) : List JRow :=
  if h.fails then [] else h.byId entity_id

/-- `JournalQueryHandler.getAllJournals`. -/
def JournalQueryHandler.getAllJournals (h : JournalQueryHandler) : List JRow :=
  if h.fails then [] else h.allJournals

/-- `JournalQueryHandler.getJournalsWithTitle`. -/
def JournalQueryHandler.getJournalsWithTitle (h : JournalQueryHandler) (partialTitle : String) : List JRow :=
  if h.fails then [] else h.withTitle partialTitle

/-- `JournalQueryHandler.getJournalsPublishedBy`. -/
def JournalQueryHandler.getJournalsPublishedBy (h : JournalQueryHandler) (partialName : String) : List JRow :=
  if h.fails then [] else h.publishedBy partialName

/-- `JournalQueryHandler.getJournalsWithLicense`. -/
def JournalQueryHandler.getJournalsWithLicense (h : JournalQueryHandler) (licenses : List String) : List JRow :=
  if h.fails then [] else h.withLicense licenses

/-- `JournalQueryHandler.getJournalsWithAPC`. -/
def JournalQueryHandler.getJournalsWithAPC (h : JournalQueryHandler) : List JRow :=
  if h.fails then [] else h.withAPC

/-- `JournalQueryHandler.getJournalsWithDOAJSeal` (the method the handler
actually defines; note the engine never manages to call it). -/
def JournalQueryHandler.getJournalsWithDOAJSeal (h : JournalQueryHandler) : List JRow :=
  if h.fails then [] else h.withDOAJSeal

/-- The Python exceptions that can escape the bodies of the engine methods
before the enclosing `except Exception` recovers. -/
inductive PyErr where
  | attributeError
  | indexError
deriving DecidableEq

/-- The result type of `BasicQueryEngine.getEntityById`: the source returns
an `IdentifiableEntity` that is concretely a journal, a category or an
area. -/
inductive IdentifiableEntity where
  | journal (j : Journal)
  | category (c : Category)
  | area (a : Area)
deriving DecidableEq

/-- `BasicQueryEngine` state: the two handler registries.  `FullQueryEngine`
adds no state of its own. -/
structure BasicQueryEngine where
  journalQuery : List JournalQueryHandler
  categoryQuery : List CategoryQueryHandler

/-- `BasicQueryEngine.addJournalHandler`: the guard `if handler and handler
not in self._journalQuery` appends only when no already-registered instance
is the same object (Python default `==` is identity, modelled by `oid`);
the method reports `True` either way. -/
def BasicQueryEngine.addJournalHandler (e : BasicQueryEngine) (h : JournalQueryHandler) :
    BasicQueryEngine × Bool :=
  if e.journalQuery.any (fun x => x.oid == h.oid) then (e, true)
  else ({ e with journalQuery := e.journalQuery ++ [h] }, true)

/-- `BasicQueryEngine.addCategoryHandler`: same contract as
`addJournalHandler` for the classification registry. -/
def BasicQueryEngine.addCategoryHandler (e : BasicQueryEngine) (h : CategoryQueryHandler) :
    BasicQueryEngine × Bool :=
  if e.categoryQuery.any (fun x => x.oid == h.oid) then (e, true)
  else ({ e with categoryQuery := e.categoryQuery ++ [h] }, true)

/-- The first loop of `BasicQueryEngine.getEntityById`: probe each
bibliographic handler in registration order and build a Journal from the
first row of the first non-empty response. -/
def jProbe (entity_id : String) : List JournalQueryHandler → Option Journal
  | [] => none
  | h :: hs =>
    match JournalQueryHandler.getById h entity_id with
    | [] => jProbe entity_id hs
    | r :: _ => some (dataframe_to_journal r)

/-- The second loop of `BasicQueryEngine.getEntityById`: probe each
classification handler; the entity kind of a hit is decided by whether the
row carries the `quartile` column. -/
def cProbe (entity_id : String) : List CategoryQueryHandler → Option IdentifiableEntity
  | [] => none
  | h :: hs =>
    match CategoryQueryHandler.getById h entity_id with
    | [] => cProbe entity_id hs
    | r :: _ =>
      if r.quartile.isSome then some (.category (dataframe_to_category r))
      else some (.area (dataframe_to_area r))

/-- `BasicQueryEngine.getEntityById`: journal handlers first, category
handlers second, `None` when every probe is empty. -/
def BasicQueryEngine.getEntityById (e : BasicQueryEngine) (entity_id : String) :
    Option IdentifiableEntity :=
  match jProbe entity_id e.journalQuery with
  | some j => some (.journal j)
  | none => cProbe entity_id e.categoryQuery

/-- `BasicQueryEngine.getAllJournals`: every handler's full listing, each
row mapped to a `Journal` (`_dataframe_to_journal` never returns `None` in
the embedded semantics, so every row contributes an entity). -/
def BasicQueryEngine.getAllJournals (e : BasicQueryEngine) : List Journal :=
  listFlat (fun h => (JournalQueryHandler.getAllJournals h).map dataframe_to_journal)
    e.journalQuery

/-- `BasicQueryEngine.getJournalsWithTitle`. -/
def BasicQueryEngine.getJournalsWithTitle (e : BasicQueryEngine) (partialTitle : String) :
    List Journal :=
  listFlat (fun h => (JournalQueryHandler.getJournalsWithTitle h partialTitle).map
    dataframe_to_journal) e.journalQuery

/-- `BasicQueryEngine.getJournalsPublishedBy`. -/
def BasicQueryEngine.getJournalsPublishedBy (e : BasicQueryEngine) (partialName : String) :
    List Journal :=
  listFlat (fun h => (JournalQueryHandler.getJournalsPublishedBy h partialName).map
    dataframe_to_journal) e.journalQuery

/-- `BasicQueryEngine.getJournalsWithLicense`. -/
def BasicQueryEngine.getJournalsWithLicense (e : BasicQueryEngine) (licenses : List String) :
    List Journal :=
  listFlat (fun h => (JournalQueryHandler.getJournalsWithLicense h licenses).map
    dataframe_to_journal) e.journalQuery

/-- `BasicQueryEngine.getJournalsWithAPC`. -/
def BasicQueryEngine.getJournalsWithAPC (e : BasicQueryEngine) : List Journal :=
  listFlat (fun h => (JournalQueryHandler.getJournalsWithAPC h).map dataframe_to_journal)
    e.journalQuery

/-- The try-block of `BasicQueryEngine.getJournalsWithDOAJSeal`.  The loop
body invokes `handler.getJournalsWithDOASeal()`, an attribute that
`JournalQueryHandler` does not define (the handler method is spelled
`getJournalsWithDOAJSeal`), so as soon as there is one registered handler
Python raises `AttributeError`; with no handlers the loop body never runs
and the accumulated empty list is returned. -/
def BasicQueryEngine.getJournalsWithDOAJSealBody (e : BasicQueryEngine) :
    Except PyErr (List Journal) :=
  match e.journalQuery with
  | [] => .ok []
  | _ :: _ => .error .attributeError

/-- `BasicQueryEngine.getJournalsWithDOAJSeal`: the `except Exception`
around the body turns the `AttributeError` into an empty list, so the
method returns `[]` on every input. -/
def BasicQueryEngine.getJournalsWithDOAJSeal (e : BasicQueryEngine) : List Journal :=
  match BasicQueryEngine.getJournalsWithDOAJSealBody e with
  | .ok l => l
  | .error _ => []

/-- `BasicQueryEngine.getAllCategories`. -/
def BasicQueryEngine.getAllCategories (e : BasicQueryEngine) : List Category :=
  listFlat (fun h => (CategoryQueryHandler.getAllCategories h).map dataframe_to_category)
    e.categoryQuery

/-- `BasicQueryEngine.getAllAreas`. -/
def BasicQueryEngine.getAllAreas (e : BasicQueryEngine) : List Area :=
  listFlat (fun h => (CategoryQueryHandler.getAllAreas h).map dataframe_to_area)
    e.categoryQuery

/-- `BasicQueryEngine.getCategoriesWithQuartile`. -/
def BasicQueryEngine.getCategoriesWithQuartile (e : BasicQueryEngine) (quartiles : List String) :
    List Category :=
  listFlat (fun h => (CategoryQueryHandler.getCategoriesWithQuartile h quartiles).map
    dataframe_to_category) e.categoryQuery

/-- `BasicQueryEngine.getCategoriesAssignedToAreas`. -/
def BasicQueryEngine.getCategoriesAssignedToAreas (e : BasicQueryEngine) (area_ids : List String) :
    List Category :=
  listFlat (fun h => (CategoryQueryHandler.getCategoriesAssignedToAreas h area_ids).map
    dataframe_to_category) e.categoryQuery

/-- `BasicQueryEngine.getAreasAssignedToCategories`. -/
def BasicQueryEngine.getAreasAssignedToCategories (e : BasicQueryEngine) (category_ids : List String) :
    List Area :=
  listFlat (fun h => (CategoryQueryHandler.getAreasAssignedToCategories h category_ids).map
    dataframe_to_area) e.categoryQuery

/-- The nested loops of the mashup methods that collect
`journal_issns_in_areas`: outer loop over the registered classification
handlers, inner loop over the supplied area ids, accumulating
`_get_issns_for_area` results (set union is modelled by concatenation;
only membership is ever consulted). -/
def areaIssnList (e : BasicQueryEngine) (area_ids : List String) : List String :=
  listFlat (fun h => listFlat (fun a => issnsForArea h a) area_ids) e.categoryQuery

/-- The list comprehension
`[cat for cat in categories_with_quartile if cat.getIds()[0] in category_ids]`:
`getIds()[0]` raises `IndexError` on a category whose identifier list is
empty (a category row whose id is falsy), aborting the whole comprehension. -/
def pyFilterCatsByIds (category_ids : List String) :
    List Category → Except PyErr (List Category)
  | [] => .ok []
  | c :: cs =>
    match c.ids with
    | [] => .error .indexError
    | i :: _ => do
      let rest ← pyFilterCatsByIds category_ids cs
      pure (if category_ids.contains i then c :: rest else rest)

/-- The inner loop `for category in categories_with_quartile` of the issn
collection: `category.getIds()[0]` raises on an id-less category, otherwise
the issns of that category are added. -/
def collectCatIssnsH (h : CategoryQueryHandler) :
    List Category → Except PyErr (List String)
  | [] => .ok []
  | c :: cs =>
    match c.ids with
    | [] => .error .indexError
    | i :: _ => do
      let rest ← collectCatIssnsH h cs
      pure (issnsForCategory h i ++ rest)

/-- The outer loop `for handler in self._categoryQuery` of the issn
collection for categories. -/
def collectCatIssns (hs : List CategoryQueryHandler) (cats : List Category) :
    Except PyErr (List String) :=
  match hs with
  | [] => .ok []
  | h :: rest => do
    let a ← collectCatIssnsH h cats
    let b ← collectCatIssns rest cats
    pure (a ++ b)

/-- `FullQueryEngine.getJournalsInAreasWithLicense`: journals matching the
licences, restricted to those whose first identifier is truthy and lies in
the issn set of the given areas. -/
def FullQueryEngine.getJournalsInAreasWithLicense (e : BasicQueryEngine)
    (area_ids licenses : List String) : List Journal :=
  let journals_with_license := BasicQueryEngine.getJournalsWithLicense e licenses
  let journal_issns_in_areas := areaIssnList e area_ids
  journals_with_license.filter (fun j =>
    match j.ids.head? with
    | some i => decide (i ≠ "") && journal_issns_in_areas.contains i
    | none => false)

/-- The category-restriction step of the diamond mashup: when
`category_ids` is non-empty the comprehension filters the quartile
categories (and can raise), otherwise the list is kept as is. -/
def diamondCats (category_ids : List String) (cats0 : List Category) :
    Except PyErr (List Category) :=
  if category_ids.isEmpty then .ok cats0 else pyFilterCatsByIds category_ids cats0

/-- The try-block of
`FullQueryEngine.getDiamondJournalsInAreasAndCategoriesWithQuartile`:
journals without APC from the full listing, the issn set of the given
areas, the issn set of the categories matching the quartiles (restricted to
`category_ids` when non-empty), and the filter keeping journals whose first
identifier is truthy and lies in both issn sets.  The only raising
operations are the `getIds()[0]` accesses on categories. -/
def FullQueryEngine.getDiamondBody (e : BasicQueryEngine)
    (area_ids category_ids quartiles : List String) : Except PyErr (List Journal) :=
  Except.bind (diamondCats category_ids (BasicQueryEngine.getCategoriesWithQuartile e quartiles))
    (fun cats => Except.bind (collectCatIssns e.categoryQuery cats)
      (fun journal_issns_in_categories =>
        .ok (((BasicQueryEngine.getAllJournals e).filter (fun j => !j.apc)).filter (fun j =>
          match j.ids.head? with
          | some i => decide (i ≠ "") && (areaIssnList e area_ids).contains i &&
              journal_issns_in_categories.contains i
          | none => false))))

/-- `FullQueryEngine.getDiamondJournalsInAreasAndCategoriesWithQuartile`:
the `except Exception` around the body recovers any `IndexError` into an
empty result. -/
def FullQueryEngine.getDiamondJournalsInAreasAndCategoriesWithQuartile
    (e : BasicQueryEngine) (area_ids category_ids quartiles : List String) : List Journal :=
  match FullQueryEngine.getDiamondBody e area_ids category_ids quartiles with
  | .ok l => l
  | .error _ => []

/-- The categories qualifying in the diamond query: those returned for the
quartiles, restricted to `category_ids` when that set is non-empty
(categories without a first identifier cannot qualify). -/
def qualifyingCategories (e : BasicQueryEngine) (category_ids quartiles : List String) :
    List Category :=
  let cats0 := BasicQueryEngine.getCategoriesWithQuartile e quartiles
  if category_ids.isEmpty then cats0
  else cats0.filter (fun c =>
    match c.ids.head? with
    | some i => category_ids.contains i
    | none => false)

/-- The issn set associated with the qualifying categories, as the diamond
query accumulates it (handlers outer, categories inner). -/
def catIssnList (e : BasicQueryEngine) (category_ids quartiles : List String) : List String :=
  listFlat (fun h => listFlat (fun c =>
      match c.ids.head? with
      | some i => issnsForCategory h i
      | none => []) (qualifyingCategories e category_ids quartiles))
    e.categoryQuery

/-- Specification-shaped restatement of `getEntityById`, written from the
claim: the first non-empty bibliographic response wins and is a Journal;
otherwise the first non-empty classification response wins, typed as
Category or Area by the presence of the quartile column; otherwise the
lookup reports not-found. -/
def getEntityByIdSpec (e : BasicQueryEngine) (entity_id : String) :
    Option IdentifiableEntity :=
  match e.journalQuery.findSome? (fun h => (JournalQueryHandler.getById h entity_id).head?) with
  | some r => some (.journal (dataframe_to_journal r))
  | none =>
    match e.categoryQuery.findSome? (fun h => (CategoryQueryHandler.getById h entity_id).head?) with
    | some r =>
      if r.quartile.isSome then some (.category (dataframe_to_category r))
      else some (.area (dataframe_to_area r))
    | none => none

/-- The literal part of the `getJournalsWithTitle` SPARQL f-string that
precedes the interpolated `partialTitle`. -/
def titleQueryPre : String :=
  "\n            PREFIX doaj: <http://doaj.org/>" ++
  "\n            PREFIX rdf: <http://www.w3.org/1999/02/22-rdf-syntax-ns#>" ++
  "\n            " ++
  "\n            SELECT ?journal ?title ?issn ?eissn ?language ?publisher ?seal ?licence ?apc" ++
  "\n            WHERE \x7b" ++
  "\n                ?journal rdf:type doaj:Journal ." ++
  "\n                ?journal doaj:title ?title ." ++
  "\n                FILTER (CONTAINS(LCASE(?title), LCASE(\""

/-- The literal part of the `getJournalsWithTitle` SPARQL f-string that
follows the interpolated `partialTitle`. -/
def titleQueryPost : String :=
  "\")))" ++
  "\n                OPTIONAL \x7b ?journal doaj:issn ?issn \x7d" ++
  "\n                OPTIONAL \x7b ?journal doaj:eissn ?eissn \x7d" ++
  "\n                OPTIONAL \x7b ?journal doaj:language ?language \x7d" ++
  "\n                OPTIONAL \x7b ?journal doaj:publisher ?publisher \x7d" ++
  "\n                OPTIONAL \x7b ?journal doaj:hasDOAJSeal ?seal \x7d" ++
  "\n                OPTIONAL \x7b ?journal doaj:licence ?licence \x7d" ++
  "\n                OPTIONAL \x7b ?journal doaj:hasAPC ?apc \x7d" ++
  "\n            \x7d" ++
  "\n            ORDER BY ?title" ++
  "\n            "

/-- The SPARQL text generated by `JournalQueryHandler.getJournalsWithTitle`:
the f-string embeds `partialTitle` between the two literal parts with no
escaping applied. -/
def JournalQueryHandler.buildTitleQuery (partialTitle : String) : String :=
  titleQueryPre ++ partialTitle ++ titleQueryPost

/-- The literal part of the `getById` SPARQL f-string that precedes the
interpolated `entity_id`. -/
def byIdQueryPre : String :=
  "\n            PREFIX doaj: <http://doaj.org/>" ++
  "\n            PREFIX rdf: <http://www.w3.org/1999/02/22-rdf-syntax-ns#>" ++
  "\n            " ++
  "\n            SELECT ?journal ?title ?issn ?eissn ?language ?publisher ?seal ?licence ?apc" ++
  "\n            WHERE \x7b" ++
  "\n                ?journal rdf:type doaj:Journal ." ++
  "\n                ?journal doaj:issn \""

/-- The literal part of the `getById` SPARQL f-string that follows the
interpolated `entity_id`. -/
def byIdQueryPost : String :=
  "\" ." ++
  "\n                ?journal doaj:title ?title ." ++
  "\n                OPTIONAL \x7b ?journal doaj:issn ?issn \x7d" ++
  "\n                OPTIONAL \x7b ?journal doaj:eissn ?eissn \x7d" ++
  "\n                OPTIONAL \x7b ?journal doaj:language ?language \x7d" ++
  "\n                OPTIONAL \x7b ?journal doaj:publisher ?publisher \x7d" ++
  "\n                OPTIONAL \x7b ?journal doaj:hasDOAJSeal ?seal \x7d" ++
  "\n                OPTIONAL \x7b ?journal doaj:licence ?licence \x7d" ++
  "\n                OPTIONAL \x7b ?journal doaj:hasAPC ?apc \x7d" ++
  "\n            \x7d" ++
  "\n            "

/-- The SPARQL text generated by `JournalQueryHandler.getById`: the
f-string embeds `entity_id` verbatim. -/
def JournalQueryHandler.buildByIdQuery (entity_id : String) : String :=
  byIdQueryPre ++ entity_id ++ byIdQueryPost

/-- One pass of Python `text.replace(pat, rep)` for a single-character
pattern: each occurrence of `pat` becomes the block `rep`. -/
def replaceChar (pat : Char) (rep : List Char) : List Char → List Char
  | [] => []
  | c :: rest => (if c = pat then rep else [c]) ++ replaceChar pat rep rest

/-- `JournalUploadHandler._escape_string` at the character level: the four
successive single-character replaces of the source, innermost first
(backslash doubling, then quote, newline and carriage return). -/
def escapeStringL (l : List Char) : List Char :=
  replaceChar '\r' ['\\', 'r']
    (replaceChar '\n' ['\\', 'n']
      (replaceChar '"' ['\\', '"']
        (replaceChar '\\' ['\\', '\\'] l)))

/-- `JournalUploadHandler._escape_string` on strings. -/
def JournalUploadHandler.escapeString (s : String) : String :=
  String.mk (escapeStringL s.data)

/-- The per-character effect of the composed replaces: the four special
characters become two-character escape blocks, everything else is kept. -/
def escChar (c : Char) : List Char :=
  if c = '\\' then ['\\', '\\']
  else if c = '"' then ['\\', '"']
  else if c = '\n' then ['\\', 'n']
  else if c = '\r' then ['\\', 'r']
  else [c]

/-- A character list is well escaped when every quote, newline and carriage
return in it is consumed by a directly preceding backslash. -/
def wellEscaped : List Char → Bool
  | [] => true
  | c :: rest =>
    if c = '\\' then
      match rest with
      | [] => true
      | _ :: rest2 => wellEscaped rest2
    else if c = '"' then false
    else if c = '\n' then false
    else if c = '\r' then false
    else wellEscaped rest

/-- Whether `pat` occurs at the head of the second list. -/
def headMatches : List Char → List Char → Bool
  | [], _ => true
  | _ :: _, [] => false
  | p :: ps, c :: cs => p == c && headMatches ps cs

/-- Whether `pat` occurs contiguously anywhere in the haystack. -/
def containsSub (pat : List Char) : List Char → Bool
  | [] => headMatches pat []
  | c :: t => headMatches pat (c :: t) || containsSub pat t

/-- A concrete bibliographic row: journal 111, no APC. -/
def row111 : JRow := [("issn", "111"), ("title", "Journal A"), ("licence", "CC BY")]

/-- A concrete bibliographic row: journal 222, with APC. -/
def row222 : JRow :=
  [("issn", "222"), ("title", "Journal B"), ("licence", "CC BY"), ("apc", "true")]

/-- A concrete reachable bibliographic adapter over a two-journal store. -/
def demoJH : JournalQueryHandler :=
  { oid := 1
    fails := false
    byId := fun s => if s = "111" then [row111] else if s = "222" then [row222] else []
    allJournals := [row111, row222]
    withTitle := fun t => if t = "Journal" then [row111, row222] else []
    publishedBy := fun _ => []
    withLicense := fun ls => if ls.contains "CC BY" then [row111, row222] else []
    withAPC := [row222]
    withDOAJSeal := [[("issn", "111"), ("title", "Journal A"), ("seal", "true")]] }

/-- A concrete classification store: categories AI (Q1) and DB (Q2), area
CS, journal 111 in AI and CS, journal 222 in DB. -/
def demoDb : SqliteDb :=
  { categories := [("AI", some "Q1"), ("DB", some "Q2")]
    areas := ["CS"]
    journal_categories := [("111", "AI", some "Q1"), ("222", "DB", some "Q2")]
    journal_areas := [("111", "CS")] }

/-- A concrete reachable classification adapter. -/
def demoCH : CategoryQueryHandler := { oid := 2, fails := false, db := demoDb }

/-- A concrete engine with one adapter of each kind registered. -/
def demoEngine : BasicQueryEngine := { journalQuery := [demoJH], categoryQuery := [demoCH] }

/-- The Journal entity built from `row111`. -/
def demoJ111 : Journal := dataframe_to_journal row111

/-- A bibliographic adapter whose backend is unreachable. -/
def failJH : JournalQueryHandler :=
  { oid := 3
    fails := true
    byId := fun _ => []
    allJournals := []
    withTitle := fun _ => []
    publishedBy := fun _ => []
    withLicense := fun _ => []
    withAPC := []
    withDOAJSeal := [] }

/-- A classification adapter whose backend is unreachable. -/
def failCH : CategoryQueryHandler := { oid := 4, fails := true, db := demoDb }

/-- A classification store holding a category whose id is the empty string:
its Category entity has no identifiers, so `getIds()[0]` raises inside the
diamond mashup. -/
def badDb : SqliteDb :=
  { categories := [("", some "Q1")]
    areas := []
    journal_categories := []
    journal_areas := [] }

/-- A reachable classification adapter over the degenerate store. -/
def badCH : CategoryQueryHandler := { oid := 5, fails := false, db := badDb }

/-- An engine whose bibliographic backend is unreachable and whose
classification store makes the diamond body raise. -/
def failEngine : BasicQueryEngine := { journalQuery := [failJH], categoryQuery := [badCH] }

/-- An engine in which every registered backend is unreachable. -/
def failEngine2 : BasicQueryEngine := { journalQuery := [failJH], categoryQuery := [failCH] }

/-- Claim C3: every set-taking predicate of the classification adapter,
called with the empty set, returns exactly the rows of the unfiltered
listing for its entity kind: `getCategoriesWithQuartile` and
`getCategoriesAssignedToAreas` coincide with `getAllCategories`, and
`getAreasAssignedToCategories` coincides with `getAllAreas`. -/
theorem claim3 (h : CategoryQueryHandler) :
    CategoryQueryHandler.getCategoriesWithQuartile h [] =
      CategoryQueryHandler.getAllCategories h ∧
    CategoryQueryHandler.getCategoriesAssignedToAreas h [] =
      CategoryQueryHandler.getAllCategories h ∧
    CategoryQueryHandler.getAreasAssignedToCategories h [] =
      CategoryQueryHandler.getAllAreas h :=
  ⟨rfl, rfl, rfl⟩

/-- Claim C4, counterexample: the claim asserts that the string
representation "1" in the seal column yields `hasDOAJSeal() == true`; in
the code a string cell is parsed with `value.lower() == 'true'`, so the
row with seal "1" yields a Journal whose seal flag is false. -/
theorem claim4_counterexample :
    Journal.hasDOASeal (dataframe_to_journal [("issn", "1234-5678"), ("seal", "1")]) = false := by
  decide

/-- Claim C4 as amended: for rows of the bibliographic adapter the seal and
apc cells are strings and are parsed case-insensitively as `lower() ==
'true'`; hence "true" and "TRUE" map to true while "1" maps to false, and
the round-trip row with seal "true" and apc "false" reports seal true and
apc false. -/
theorem claim4 (sv av : String) :
    Journal.hasDOASeal (dataframe_to_journal
        [("issn", "1234-5678"), ("title", "X"), ("seal", sv), ("apc", av)]) =
      (pyLower sv == "true") ∧
    Journal.hasAPC (dataframe_to_journal
        [("issn", "1234-5678"), ("title", "X"), ("seal", sv), ("apc", av)]) =
      (pyLower av == "true") ∧
    Journal.hasDOASeal (dataframe_to_journal
        [("issn", "1234-5678"), ("title", "X"), ("seal", "true"), ("apc", "false")]) = true ∧
    Journal.hasAPC (dataframe_to_journal
        [("issn", "1234-5678"), ("title", "X"), ("seal", "true"), ("apc", "false")]) = false ∧
    Journal.hasDOASeal (dataframe_to_journal
        [("issn", "1234-5678"), ("title", "X"), ("seal", "TRUE"), ("apc", "FALSE")]) = true :=
  ⟨rfl, rfl, by decide, by decide, by decide⟩

/-- Claim C5: the engine method `getJournalsWithDOAJSeal` invokes
`handler.getJournalsWithDOASeal()`, a method `JournalQueryHandler` does not
define, so every call raises `AttributeError`, is swallowed by the except
clause, and returns the empty list even when the handler's seal-filtered
query has rows; by contrast the title passthrough works as claimed. -/
theorem claim5 :
    BasicQueryEngine.getJournalsWithDOAJSeal demoEngine = [] ∧
    (JournalQueryHandler.getJournalsWithDOAJSeal demoJH).map dataframe_to_journal ≠ [] ∧
    BasicQueryEngine.getJournalsWithTitle demoEngine "Journal" =
      [dataframe_to_journal row111, dataframe_to_journal row222] :=
  ⟨rfl, by decide, by decide⟩

/-- Claim C10: the row-to-journal mapper is total; a row lacking both the
issn and eissn columns yields a Journal with an empty identifier list, and
a row with no columns at all yields the all-default Journal (empty title,
no languages, no publisher, seal and apc false, empty licence). -/
theorem claim10 :
    (∀ r : JRow, List.lookup "issn" r = none → List.lookup "eissn" r = none →
      (dataframe_to_journal r).ids = []) ∧
    dataframe_to_journal [] =
      { ids := [], title := "", languages := [], publisher := none, doajSeal := false,
        licence := "", apc := false, categories := [], areas := [] } := by
  constructor
  · intro r h1 h2
    simp [dataframe_to_journal, jget, h1, h2]
  · decide

/-- Witness for C10: a row carrying only a title has no issn and no eissn
column, and the mapper indeed produces an identifier-free Journal. -/
theorem claim10_witness : (dataframe_to_journal [("title", "X")]).ids = [] :=
  claim10.1 [("title", "X")] rfl rfl

/-- Claim C8: registering the same adapter instance (same Python identity,
modelled by `oid`) twice in either registry leaves exactly one occurrence
of it in the internal list, and both calls report success. -/
theorem claim8 (e : BasicQueryEngine) (jh : JournalQueryHandler) (ch : CategoryQueryHandler)
    (hj : e.journalQuery.countP (fun x => x.oid == jh.oid) = 0)
    (hc : e.categoryQuery.countP (fun x => x.oid == ch.oid) = 0) :
    (BasicQueryEngine.addJournalHandler e jh).2 = true ∧
    (BasicQueryEngine.addJournalHandler (BasicQueryEngine.addJournalHandler e jh).1 jh).2 = true ∧
    ((BasicQueryEngine.addJournalHandler
        (BasicQueryEngine.addJournalHandler e jh).1 jh).1.journalQuery.countP
      (fun x => x.oid == jh.oid)) = 1 ∧
    (BasicQueryEngine.addCategoryHandler e ch).2 = true ∧
    (BasicQueryEngine.addCategoryHandler (BasicQueryEngine.addCategoryHandler e ch).1 ch).2 = true ∧
    ((BasicQueryEngine.addCategoryHandler
        (BasicQueryEngine.addCategoryHandler e ch).1 ch).1.categoryQuery.countP
      (fun x => x.oid == ch.oid)) = 1 := by
  have hjany : e.journalQuery.any (fun x => x.oid == jh.oid) = false := by
    rw [List.any_eq_false]
    intro x hx
    have := List.countP_eq_zero.mp hj x hx
    simpa using this
  have hcany : e.categoryQuery.any (fun x => x.oid == ch.oid) = false := by
    rw [List.any_eq_false]
    intro x hx
    have := List.countP_eq_zero.mp hc x hx
    simpa using this
  refine ⟨?_, ?_, ?_, ?_, ?_, ?_⟩
  · simp only [BasicQueryEngine.addJournalHandler]
    split <;> rfl
  · simp only [BasicQueryEngine.addJournalHandler]
    split
    · rfl
    · split <;> rfl
  · simp [BasicQueryEngine.addJournalHandler, hjany, List.any_append, List.countP_append, hj]
  · simp only [BasicQueryEngine.addCategoryHandler]
    split <;> rfl
  · simp only [BasicQueryEngine.addCategoryHandler]
    split
    · rfl
    · split <;> rfl
  · simp [BasicQueryEngine.addCategoryHandler, hcany, List.any_append, List.countP_append, hc]

/-- Witness for C8: on the empty engine, adding `demoJH` twice and `demoCH`
twice succeeds each time and leaves one occurrence of each in its
registry. -/
theorem claim8_witness :
    ((BasicQueryEngine.addJournalHandler
        (BasicQueryEngine.addJournalHandler ⟨[], []⟩ demoJH).1 demoJH).1.journalQuery.countP
      (fun x => x.oid == demoJH.oid)) = 1 ∧
    ((BasicQueryEngine.addCategoryHandler
        (BasicQueryEngine.addCategoryHandler ⟨[], []⟩ demoCH).1 demoCH).1.categoryQuery.countP
      (fun x => x.oid == demoCH.oid)) = 1 :=
  ⟨(claim8 ⟨[], []⟩ demoJH demoCH rfl rfl).2.2.1,
   (claim8 ⟨[], []⟩ demoJH demoCH rfl rfl).2.2.2.2.2⟩


/-- Collecting over a list whose entries all contribute nothing yields
nothing. -/
theorem listFlat_const_nil (l : List α) : listFlat (fun _ => ([] : List β)) l = [] := by
  induction l with
  | nil => rfl
  | cons a l ih => simpa [listFlat] using ih

/-- With no area ids the nested issn-collection loops never run. -/
theorem areaIssnList_nil (e : BasicQueryEngine) : areaIssnList e [] = [] := by
  simpa [areaIssnList, listFlat] using listFlat_const_nil e.categoryQuery

/-- A successful run of the category-id restriction comprehension computes
the filter over categories whose first identifier exists and is in the
set. -/
theorem pyFilterCatsByIds_ok (cids : List String) (cats : List Category) (l : List Category)
    (h : pyFilterCatsByIds cids cats = .ok l) :
    l = cats.filter (fun c =>
      match c.ids.head? with
      | some i => cids.contains i
      | none => false) := by
  induction cats generalizing l with
  | nil =>
    simp [pyFilterCatsByIds] at h
    subst h
    rfl
  | cons c cs ih =>
    match hc : c.ids with
    | [] => rw [pyFilterCatsByIds, hc] at h; exact absurd h (by simp)
    | i :: rest =>
      rw [pyFilterCatsByIds, hc] at h
      cases hr : pyFilterCatsByIds cids cs with
      | error err => rw [hr] at h; exact absurd h (by simp [Bind.bind, Except.bind])
      | ok r =>
        rw [hr] at h
        simp only [Bind.bind, Except.bind, Pure.pure, Except.pure, Except.ok.injEq] at h
        rw [List.filter_cons, ← ih r hr, ← h, hc]
        by_cases hmem : cids.contains i = true <;> simp [hmem]

/-- A successful run of the per-handler category issn collection computes
the flattened `_get_issns_for_category` results of the categories that
have a first identifier. -/
theorem collectCatIssnsH_ok (h : CategoryQueryHandler) (cats : List Category) (r : List String)
    (hr : collectCatIssnsH h cats = .ok r) :
    r = listFlat (fun c =>
      match c.ids.head? with
      | some i => issnsForCategory h i
      | none => []) cats := by
  induction cats generalizing r with
  | nil =>
    simp [collectCatIssnsH] at hr
    subst hr
    rfl
  | cons c cs ih =>
    match hc : c.ids with
    | [] => rw [collectCatIssnsH, hc] at hr; exact absurd hr (by simp)
    | i :: rest =>
      rw [collectCatIssnsH, hc] at hr
      cases hrec : collectCatIssnsH h cs with
      | error err => rw [hrec] at hr; exact absurd hr (by simp [Bind.bind, Except.bind])
      | ok rr =>
        rw [hrec] at hr
        simp only [Bind.bind, Except.bind, Pure.pure, Except.pure, Except.ok.injEq] at hr
        simp [listFlat, ← ih rr hrec, ← hr, hc]

/-- A successful run of the two-level issn collection computes the
handler-outer, category-inner flattening. -/
theorem collectCatIssns_ok (hs : List CategoryQueryHandler) (cats : List Category)
    (r : List String) (hr : collectCatIssns hs cats = .ok r) :
    r = listFlat (fun h => listFlat (fun c =>
      match c.ids.head? with
      | some i => issnsForCategory h i
      | none => []) cats) hs := by
  induction hs generalizing r with
  | nil =>
    simp [collectCatIssns] at hr
    subst hr
    rfl
  | cons h hs ih =>
    rw [collectCatIssns] at hr
    cases h1 : collectCatIssnsH h cats with
    | error err => rw [h1] at hr; exact absurd hr (by simp [Bind.bind, Except.bind])
    | ok a =>
      rw [h1] at hr
      cases h2 : collectCatIssns hs cats with
      | error err => rw [h2] at hr; exact absurd hr (by simp [Bind.bind, Except.bind])
      | ok b =>
        rw [h2] at hr
        simp only [Bind.bind, Except.bind, Pure.pure, Except.pure, Except.ok.injEq] at hr
        simp [listFlat, ← ih b h2, ← hr, ← collectCatIssnsH_ok h cats a h1]

/-- Every journal produced by the diamond mashup comes from the no-APC
restriction of the full listing and carries a first identifier lying in
both composing issn sets. -/
theorem diamond_mem (e : BasicQueryEngine) (a cs qs : List String) (j : Journal)
    (hj : j ∈ FullQueryEngine.getDiamondJournalsInAreasAndCategoriesWithQuartile e a cs qs) :
    j.apc = false ∧ j ∈ BasicQueryEngine.getAllJournals e ∧
    ∃ i, j.ids.head? = some i ∧ i ≠ "" ∧
      (areaIssnList e a).contains i = true ∧ (catIssnList e cs qs).contains i = true := by
  unfold FullQueryEngine.getDiamondJournalsInAreasAndCategoriesWithQuartile at hj
  cases hb : FullQueryEngine.getDiamondBody e a cs qs with
  | error err => rw [hb] at hj; exact absurd hj (by simp)
  | ok l =>
    rw [hb] at hj
    simp only at hj
    unfold FullQueryEngine.getDiamondBody at hb
    cases hc : diamondCats cs (BasicQueryEngine.getCategoriesWithQuartile e qs) with
    | error err => rw [hc] at hb; exact absurd hb (by simp [Except.bind])
    | ok cats =>
      rw [hc] at hb
      simp only [Except.bind] at hb
      cases hcoll : collectCatIssns e.categoryQuery cats with
      | error err =>
        rw [hcoll] at hb
        exact absurd hb (by simp [Except.bind])
      | ok issns =>
        rw [hcoll] at hb
        simp only [Except.bind, Except.ok.injEq] at hb
        have hcatsq : cats = qualifyingCategories e cs qs := by
          by_cases hemp : cs.isEmpty
          · rw [diamondCats, if_pos hemp] at hc
            cases hc
            simp [qualifyingCategories, hemp]
          · rw [diamondCats, if_neg hemp] at hc
            rw [qualifyingCategories]
            simp only [hemp, if_false]
            exact pyFilterCatsByIds_ok cs (BasicQueryEngine.getCategoriesWithQuartile e qs)
              cats hc
        have hissns : issns = catIssnList e cs qs := by
          rw [collectCatIssns_ok e.categoryQuery cats issns hcoll, hcatsq, catIssnList]
        rw [← hb] at hj
        rw [List.mem_filter] at hj
        obtain ⟨hj1, hj2⟩ := hj
        rw [List.mem_filter] at hj1
        obtain ⟨hmem, hapc⟩ := hj1
        refine ⟨by simpa using hapc, hmem, ?_⟩
        cases hh : j.ids.head? with
        | none => rw [hh] at hj2; exact absurd hj2 (by simp)
        | some i =>
          rw [hh] at hj2
          simp only [Bool.and_eq_true, decide_eq_true_eq] at hj2
          exact ⟨i, rfl, hj2.1.1, hj2.1.2, hissns ▸ hj2.2⟩

/-- Claim C1: every Journal returned by the diamond mashup has no APC, is
the already-fetched entity from the full journal listing, and carries an
identifier that lies both in the issn set of the given areas and in the
issn set of the categories qualifying under the given quartiles
(restricted to `category_ids` when that set is non-empty); i.e. the result
is the three-way identifier-set intersection of the composing result
sets. -/
theorem claim1 (e : BasicQueryEngine) (area_ids category_ids quartiles : List String)
    (j : Journal)
    (hj : j ∈ FullQueryEngine.getDiamondJournalsInAreasAndCategoriesWithQuartile
      e area_ids category_ids quartiles) :
    Journal.hasAPC j = false ∧ j ∈ BasicQueryEngine.getAllJournals e ∧
    ∃ i ∈ j.ids, (areaIssnList e area_ids).contains i = true ∧
      (catIssnList e category_ids quartiles).contains i = true := by
  obtain ⟨h1, h2, i, hh, _, h4, h5⟩ := diamond_mem e area_ids category_ids quartiles j hj
  refine ⟨h1, h2, i, ?_, h4, h5⟩
  cases hl : j.ids with
  | nil => rw [hl] at hh; exact absurd hh (by simp)
  | cons x t =>
    rw [hl] at hh
    simp only [List.head?_cons, Option.some.injEq] at hh
    simp [hh]

/-- Witness for C1: on the demo stores, the diamond query for area CS and
quartile Q1 returns journal 111, which indeed has no APC, appears in the
full listing, and whose issn is in both composing issn sets. -/
theorem claim1_witness :
    Journal.hasAPC demoJ111 = false ∧ demoJ111 ∈ BasicQueryEngine.getAllJournals demoEngine ∧
    ∃ i ∈ demoJ111.ids, (areaIssnList demoEngine ["CS"]).contains i = true ∧
      (catIssnList demoEngine [] ["Q1"]).contains i = true :=
  claim1 demoEngine ["CS"] [] ["Q1"] demoJ111 (by decide)

/-- Claim C9: an empty `area_ids` set makes the area issn set empty, so
both area-filtering mashups always return the empty list (in contrast with
the adapter-level empty-set convention and with `category_ids`). -/
theorem claim9 (e : BasicQueryEngine) (licenses category_ids quartiles : List String) :
    FullQueryEngine.getJournalsInAreasWithLicense e [] licenses = [] ∧
    FullQueryEngine.getDiamondJournalsInAreasAndCategoriesWithQuartile
      e [] category_ids quartiles = [] := by
  constructor
  · simp only [FullQueryEngine.getJournalsInAreasWithLicense, areaIssnList_nil]
    rw [List.filter_eq_nil_iff]
    intro j _
    cases hh : j.ids.head? <;> simp [hh]
  · rw [List.eq_nil_iff_forall_not_mem]
    intro j hj
    obtain ⟨_, _, i, _, _, harea, _⟩ := diamond_mem e [] category_ids quartiles j hj
    rw [areaIssnList_nil] at harea
    exact absurd harea (by simp)

/-- A registry whose bibliographic backends all fail contributes no rows to
the full listing. -/
theorem listFlat_allJournals_fails (l : List JournalQueryHandler)
    (hf : ∀ h ∈ l, h.fails = true) :
    listFlat (fun h => (JournalQueryHandler.getAllJournals h).map dataframe_to_journal) l = [] := by
  induction l with
  | nil => rfl
  | cons h t ih =>
    have hh : h.fails = true := hf h (by simp)
    have hempty : JournalQueryHandler.getAllJournals h = [] := by
      simp [JournalQueryHandler.getAllJournals, hh]
    simp only [listFlat, hempty, List.map_nil, List.nil_append]
    exact ih (fun x hx => hf x (by simp [hx]))

/-- Probing bibliographic handlers that all fail finds nothing. -/
theorem jProbe_fails (entity_id : String) (l : List JournalQueryHandler)
    (hf : ∀ h ∈ l, h.fails = true) : jProbe entity_id l = none := by
  induction l with
  | nil => rfl
  | cons h t ih =>
    have hh : h.fails = true := hf h (by simp)
    simp only [jProbe, JournalQueryHandler.getById, hh, if_true]
    exact ih (fun x hx => hf x (by simp [hx]))

/-- Probing classification handlers that all fail finds nothing. -/
theorem cProbe_fails (entity_id : String) (l : List CategoryQueryHandler)
    (hf : ∀ h ∈ l, h.fails = true) : cProbe entity_id l = none := by
  induction l with
  | nil => rfl
  | cons h t ih =>
    have hh : h.fails = true := hf h (by simp)
    simp only [cProbe, CategoryQueryHandler.getById, hh, if_true]
    exact ih (fun x hx => hf x (by simp [hx]))

/-- Claim C2: the public operations fail closed.  When every bibliographic
backend is unreachable the full listing is empty; when the diamond body
raises internally (the `getIds()[0]` accesses) the mashup returns the
empty list instead of propagating the fault; and when every backend of
both kinds is unreachable the entity lookup returns `None`. -/
theorem claim2 (e : BasicQueryEngine) :
    ((∀ h ∈ e.journalQuery, h.fails = true) → BasicQueryEngine.getAllJournals e = []) ∧
    (∀ area_ids category_ids quartiles err,
      FullQueryEngine.getDiamondBody e area_ids category_ids quartiles = .error err →
      FullQueryEngine.getDiamondJournalsInAreasAndCategoriesWithQuartile
        e area_ids category_ids quartiles = []) ∧
    ((∀ h ∈ e.journalQuery, h.fails = true) → (∀ h ∈ e.categoryQuery, h.fails = true) →
      ∀ entity_id, BasicQueryEngine.getEntityById e entity_id = none) := by
  refine ⟨?_, ?_, ?_⟩
  · intro hf
    exact listFlat_allJournals_fails e.journalQuery hf
  · intro a cs qs err hb
    unfold FullQueryEngine.getDiamondJournalsInAreasAndCategoriesWithQuartile
    rw [hb]
  · intro hj hc entity_id
    unfold BasicQueryEngine.getEntityById
    rw [jProbe_fails entity_id e.journalQuery hj]
    exact cProbe_fails entity_id e.categoryQuery hc

/-- Witness for C2: with the unreachable bibliographic adapter the full
listing is empty; with the degenerate classification store the diamond
body raises and the mashup returns the empty list; with both backends
unreachable the lookup of "111" reports not-found. -/
theorem claim2_witness :
    BasicQueryEngine.getAllJournals failEngine = [] ∧
    FullQueryEngine.getDiamondJournalsInAreasAndCategoriesWithQuartile failEngine [] [] [] = [] ∧
    BasicQueryEngine.getEntityById failEngine2 "111" = none :=
  ⟨(claim2 failEngine).1 (by intro h hm; simp only [failEngine, List.mem_singleton] at hm; subst hm; rfl),
   (claim2 failEngine).2.1 [] [] [] PyErr.indexError rfl,
   (claim2 failEngine2).2.2
     (by intro h hm; simp only [failEngine2, List.mem_singleton] at hm; subst hm; rfl)
     (by intro h hm; simp only [failEngine2, List.mem_singleton] at hm; subst hm; rfl) "111"⟩

/-- The bibliographic probe loop is the first non-empty response mapped to
a Journal. -/
theorem jProbe_findSome (entity_id : String) (l : List JournalQueryHandler) :
    jProbe entity_id l =
      (l.findSome? (fun h => (JournalQueryHandler.getById h entity_id).head?)).map
        dataframe_to_journal := by
  induction l with
  | nil => rfl
  | cons h t ih =>
    cases hr : JournalQueryHandler.getById h entity_id with
    | nil => simp [jProbe, hr, List.findSome?_cons, ih]
    | cons r rs => simp [jProbe, hr, List.findSome?_cons]

/-- The classification probe loop is the first non-empty response, typed by
the presence of the quartile column. -/
theorem cProbe_findSome (entity_id : String) (l : List CategoryQueryHandler) :
    cProbe entity_id l =
      match l.findSome? (fun h => (CategoryQueryHandler.getById h entity_id).head?) with
      | some r =>
        if r.quartile.isSome then some (.category (dataframe_to_category r))
        else some (.area (dataframe_to_area r))
      | none => none := by
  induction l with
  | nil => rfl
  | cons h t ih =>
    cases hr : CategoryQueryHandler.getById h entity_id with
    | nil => simp [cProbe, hr, List.findSome?_cons, ih]
    | cons r rs => simp [cProbe, hr, List.findSome?_cons]

/-- Claim C6: `getEntityById` coincides with its specification: every
bibliographic adapter is probed first and every classification adapter
second, the entity is built from the first non-empty response (a Journal
for bibliographic hits, a Category when the row has the quartile column
and an Area when it does not), and the lookup returns `None` when no
adapter yields a row. -/
theorem claim6 (e : BasicQueryEngine) (entity_id : String) :
    BasicQueryEngine.getEntityById e entity_id = getEntityByIdSpec e entity_id := by
  unfold BasicQueryEngine.getEntityById getEntityByIdSpec
  rw [jProbe_findSome, cProbe_findSome]
  cases e.journalQuery.findSome? (fun h => (JournalQueryHandler.getById h entity_id).head?) with
  | none => rfl
  | some r => rfl

/-- A single-character replace distributes over concatenation. -/
theorem replaceChar_append (p : Char) (rep : List Char) (a b : List Char) :
    replaceChar p rep (a ++ b) = replaceChar p rep a ++ replaceChar p rep b := by
  induction a with
  | nil => rfl
  | cons c t ih => simp [replaceChar, ih]

/-- The four-pass escape distributes over concatenation. -/
theorem escapeStringL_append (a b : List Char) :
    escapeStringL (a ++ b) = escapeStringL a ++ escapeStringL b := by
  simp [escapeStringL, replaceChar_append]

/-- On a single character the four passes act as the fused per-character
map: the later passes never touch the backslashes introduced by an earlier
one. -/
theorem escapeStringL_single (c : Char) : escapeStringL [c] = escChar c := by
  by_cases h1 : c = '\\'
  · subst h1; decide
  · by_cases h2 : c = '"'
    · subst h2; decide
    · by_cases h3 : c = '\n'
      · subst h3; decide
      · by_cases h4 : c = '\r'
        · subst h4; decide
        · simp [escapeStringL, replaceChar, escChar, h1, h2, h3, h4]

/-- The four-pass escape is the flattening of the per-character map. -/
theorem escapeStringL_flat (l : List Char) : escapeStringL l = listFlat escChar l := by
  induction l with
  | nil => rfl
  | cons c t ih =>
    rw [show c :: t = [c] ++ t from rfl, escapeStringL_append, escapeStringL_single, ih]
    rfl

/-- Prepending one escaped block preserves well-escapedness. -/
theorem wellEscaped_block (c : Char) (t : List Char) :
    wellEscaped (escChar c ++ t) = wellEscaped t := by
  by_cases h1 : c = '\\'
  · subst h1; simp [escChar, wellEscaped]
  · by_cases h2 : c = '"'
    · subst h2; simp [escChar, wellEscaped]
    · by_cases h3 : c = '\n'
      · subst h3; simp [escChar, wellEscaped]
      · by_cases h4 : c = '\r'
        · subst h4; simp [escChar, wellEscaped]
        · rw [show escChar c ++ t = c :: t by simp [escChar, h1, h2, h3, h4],
            wellEscaped.eq_def]
          simp [h1, h2, h3, h4]

/-- Any flattening of escaped blocks is well escaped. -/
theorem wellEscaped_flat (l : List Char) : wellEscaped (listFlat escChar l) = true := by
  induction l with
  | nil => rfl
  | cons c t ih => rw [listFlat, wellEscaped_block]; exact ih

set_option maxRecDepth 40000 in
/-- Claim C7, counterexample: the title predicate embeds its argument
verbatim, so the query generated for the argument containing a quote
contains that quote unescaped (the raw three-character pattern occurs in
the query text), whereas the upload escape of the same argument no longer
contains the raw pattern. -/
theorem claim7_counterexample :
    containsSub ['a', '"', 'b'] (JournalQueryHandler.buildTitleQuery "a\"b").data = true ∧
    containsSub ['a', '"', 'b'] (JournalUploadHandler.escapeString "a\"b").data = false := by
  constructor
  · decide
  · decide

/-- Claim C7 as amended: the bibliographic query handlers perform no
escaping at all: the generated title and by-id query texts embed the
textual argument verbatim between their literal parts.  Escaping exists
only in the upload handler, whose `_escape_string` rewrites backslash,
quote, newline and carriage return so that its output is always well
escaped. -/
theorem claim7 (s : String) :
    JournalQueryHandler.buildTitleQuery s = titleQueryPre ++ s ++ titleQueryPost ∧
    JournalQueryHandler.buildByIdQuery s = byIdQueryPre ++ s ++ byIdQueryPost ∧
    wellEscaped (JournalUploadHandler.escapeString s).data = true := by
  refine ⟨rfl, rfl, ?_⟩
  show wellEscaped (String.mk (escapeStringL s.data)).data = true
  rw [show (String.mk (escapeStringL s.data)).data = escapeStringL s.data from rfl,
    escapeStringL_flat]
  exact wellEscaped_flat s.data
